/-
Verification of the xhs-note multi-agent pipeline (crewai_mas_demo).

Shallow embedding of the repository's core modules:
  * `app/crews/xhs_note/flows.py`   — flow orchestration (guard, phases, join, report)
  * `app/crews/xhs_note/tasks.py`   — task builders over the YAML template config
  * `app/crews/tools/add_image_tool_local.py` — local image loading tool
  * `app/crews/llm/aliyun_llm.py`   — LLM HTTP adapter (retry, tool loop, empty retry)

External collaborators (the HTTP endpoint, the filesystem, the crewai executor,
the JSON parser and user-supplied tool functions) are modelled as explicit
environments/oracles passed to the embedded functions.  Python exceptions are
modelled with `Except`; Python dicts built by repeated assignment are modelled
as association lists with most-recent-binding-first lookup.
-/
import Mathlib

namespace XhsNote

/-! ## Data model (`app/schemas/xhs_note.py`)

Only the fields the flow logic reads are carried; the remaining fields of the
pydantic models are opaque free-text payload and are kept as plain strings. -/

/-- `XhsImageInput`: one uploaded image. -/
structure XhsImageInput where
  image_id : String
  file_name : String
  local_path : String
  deriving Repr, DecidableEq

/-- `XhsNoteIdeaRequest`: the inbound request for one flow run. -/
structure XhsNoteIdeaRequest where
  idea_text : String
  images : List XhsImageInput
  deriving Repr, DecidableEq

/-- `XhsImageVisualAnalysis` (fields other than the join key collapsed into `payload`). -/
structure XhsImageVisualAnalysis where
  image_id : String
  file_name : String
  payload : String
  deriving Repr, DecidableEq

/-- `XhsImageEditPlan`.  The per-image fields printed by the final report are kept. -/
structure XhsImageEditPlan where
  image_id : String
  file_name : String
  overall_edit_strategy : String
  crop_suggestion : String
  light_color_adjustment : String
  filter_suggestion : String
  text_overlay_suggestion : String
  beauty_adjustment_suggestion : String
  is_recommended_as_cover : Bool
  risk_and_pitfall_notes : String
  deriving Repr, DecidableEq

/-- `XhsVisualBatchReport`. -/
structure XhsVisualBatchReport where
  user_raw_intent : String
  images_visual : List XhsImageVisualAnalysis
  summary : String
  deriving Repr, DecidableEq

/-- `XhsImageEditBatchReport`. -/
structure XhsImageEditBatchReport where
  images_edit_plan : List XhsImageEditPlan
  summary : String
  deriving Repr, DecidableEq

/-- `XhsContentStrategyBrief` (opaque for the flow: only passed through). -/
structure XhsContentStrategyBrief where
  payload : String
  deriving Repr, DecidableEq

/-- `XhsCopywritingOutput` (opaque for the flow: only passed through). -/
structure XhsCopywritingOutput where
  payload : String
  deriving Repr, DecidableEq

/-- `XhsSEOOptimizedNote` — the fields read by `_generate_final_report`. -/
structure XhsSEOOptimizedNote where
  optimization_summary : String
  optimized_title : String
  optimized_content : String
  optimized_picture_order : List String
  tags : List String
  deriving Repr, DecidableEq

/-! ## Python-dict association lists

`visual_by_id[...] = v` on a Python dict is last-write-wins; we model the dict
as an association list with the most recent binding at the head, so lookup of
the first matching key agrees with the dict. -/

/-- Lookup of the most recently inserted binding for a key. -/
def dictLookup {α : Type} (k : String) : List (String × α) → Option α
  | [] => none
  | (k2, v) :: rest => if k = k2 then some v else dictLookup k rest

/-- `m[k] = v` on a Python dict: the new binding shadows any older one. -/
def dictInsert {α : Type} (m : List (String × α)) (k : String) (v : α) :
    List (String × α) :=
  (k, v) :: m

/-! ## Crew task outputs and harvesting (`flows.py`)

`result.tasks_output` is a list of crewai `TaskOutput` objects; the flow reads
`task_output.pydantic` (the structured result, or `None` when parsing the
model output into the schema failed / the task had no schema) and
`task_output.raw` (the raw string output, possibly `None`). -/

/-- One element of `result.tasks_output`. -/
structure TaskOut (α : Type) where
  pydantic : Option α
  raw : Option String
  deriving Repr, DecidableEq

/-- The per-image harvesting loop of `_run_visual_analysis_phase` /
`_run_image_edit_phase`: skip the trailing summary output
(`tasks_output[:-1] if len(tasks_output) > 1 else tasks_output`), keep the
outputs whose `pydantic` attribute is an instance of the expected schema, and
index them by the result's own `image_id`. -/
def harvestById {α : Type} (getId : α → String) (outs : List (TaskOut α)) :
    List (String × α) :=
  let per := if outs.length > 1 then outs.dropLast else outs
  per.foldl
    (fun m o =>
      match o.pydantic with
      | some v => dictInsert m (getId v) v
      | none => m)
    []

/-- Extraction of the summary string: `tasks_output[-1].raw or ""` when the
output list is non-empty, `""` otherwise. -/
def harvestSummary {α : Type} (outs : List (TaskOut α)) : String :=
  match outs.getLast? with
  | some o => (o.raw).getD ""
  | none => ""

/-! ## Flow environment

`crew.akickoff()` (one call per phase) and the content-phase crew are external
collaborators; each either raises an exception (`FlowExc`, recorded by the
flow as `f"流程执行失败: {type(exc).__name__}: {str(exc)}"`) or returns its
`tasks_output`.  The content-phase harvesting (`tasks_output[0/1/2].pydantic`)
is positional in the source; the environment returns the three structured
outputs of that crew run directly. -/

/-- A Python exception escaping a phase: class name and message. -/
structure FlowExc where
  excType : String
  excMsg : String
  deriving Repr, DecidableEq

/-- Events the flow emits on external collaborators: executor invocations
(one per `crew.akickoff()` await) and duration-metric observations
(`crew_execution_seconds...observe(duration)`). -/
inductive FlowEvent where
  | visualExec
  | editExec
  | contentExec
  | metricObserve
  deriving Repr, DecidableEq

/-- The executor environment of one flow run. -/
structure FlowEnv where
  visualKick : XhsNoteIdeaRequest →
    Except FlowExc (List (TaskOut XhsImageVisualAnalysis))
  editKick : String → List (XhsImageInput × XhsImageVisualAnalysis) →
    Except FlowExc (List (TaskOut XhsImageEditPlan))
  contentKick : String → XhsVisualBatchReport → XhsImageEditBatchReport →
    Except FlowExc (XhsContentStrategyBrief × XhsCopywritingOutput × XhsSEOOptimizedNote)

/-- `_run_visual_analysis_phase`: returns the `image_id`-indexed map plus the
summary text, or propagates the executor exception; the paired list records
whether the executor was invoked. -/
def run_visual_analysis_phase (env : FlowEnv) (req : XhsNoteIdeaRequest) :
    Except FlowExc (List (String × XhsImageVisualAnalysis) × String) × List FlowEvent :=
  if req.images.isEmpty then (Except.ok ([], ""), [])
  else
    match env.visualKick req with
    | Except.error e => (Except.error e, [FlowEvent.visualExec])
    | Except.ok outs =>
        (Except.ok (harvestById (fun v => v.image_id) outs, harvestSummary outs),
         [FlowEvent.visualExec])

/-- The edit-task construction loop of `_run_image_edit_phase` (lines 176–183):
one `build_image_edit_task(idea_text, img, visual)` argument tuple per request
image whose `image_id` has a visual-analysis entry; images without one are
skipped (`if not visual: continue`). -/
def editTaskArgs (req : XhsNoteIdeaRequest)
    (visual_by_id : List (String × XhsImageVisualAnalysis)) :
    List (XhsImageInput × XhsImageVisualAnalysis) :=
  req.images.filterMap
    (fun img => (dictLookup img.image_id visual_by_id).map (fun v => (img, v)))

/-- `_run_image_edit_phase`: short-circuits to empty results without invoking
the executor when no tasks were built, otherwise mirrors the visual phase. -/
def run_image_edit_phase (env : FlowEnv) (req : XhsNoteIdeaRequest)
    (visual_by_id : List (String × XhsImageVisualAnalysis)) :
    Except FlowExc (List (String × XhsImageEditPlan) × String) × List FlowEvent :=
  let args := editTaskArgs req visual_by_id
  if args.isEmpty then (Except.ok ([], ""), [])
  else
    match env.editKick req.idea_text args with
    | Except.error e => (Except.error e, [FlowEvent.editExec])
    | Except.ok outs =>
        (Except.ok (harvestById (fun p => p.image_id) outs, harvestSummary outs),
         [FlowEvent.editExec])

/-- The aggregation loop of `run_xhs_note_flow` (lines 326–332): for every
request image, in request order, keep the `(visual, plan)` pair when both maps
have an entry for its `image_id`, `continue` otherwise. -/
def aggregatePairs (req : XhsNoteIdeaRequest)
    (visual_by_id : List (String × XhsImageVisualAnalysis))
    (edit_by_id : List (String × XhsImageEditPlan)) :
    List (XhsImageVisualAnalysis × XhsImageEditPlan) :=
  req.images.filterMap
    (fun img =>
      match dictLookup img.image_id visual_by_id, dictLookup img.image_id edit_by_id with
      | some v, some p => some (v, p)
      | _, _ => none)

/-- Python `f"{b}"` for a bool. -/
def pyBoolStr (b : Bool) : String :=
  if b then "True" else "False"

/-- Python `f"{xs}"` for a list of strings (single-quoted repr). -/
def pyListStr (xs : List String) : String :=
  let q := (Char.ofNat 39).toString
  "[" ++ String.intercalate ", " (xs.map (fun s => q ++ s ++ q)) ++ "]"

/-- One iteration of the per-image loop in `_generate_final_report`. -/
def reportImageBlock (img : XhsImageEditPlan) : String :=
  "图片ID: " ++ img.image_id ++ "\n" ++
  "图片编辑方案: " ++ img.overall_edit_strategy ++ "\n" ++
  "图片剪裁建议: " ++ img.crop_suggestion ++ "\n" ++
  "图片亮度/对比度/饱和度调整建议: " ++ img.light_color_adjustment ++ "\n" ++
  "图片滤镜建议: " ++ img.filter_suggestion ++ "\n" ++
  "图片文字建议: " ++ img.text_overlay_suggestion ++ "\n" ++
  "图片美颜建议: " ++ img.beauty_adjustment_suggestion ++ "\n" ++
  "图片是否建议作为首图: " ++ pyBoolStr img.is_recommended_as_cover ++ "\n" ++
  "图片需要规避的审美风险/平台审核风险: " ++ img.risk_and_pitfall_notes ++ "\n"

/-- `_generate_final_report`. -/
def generate_final_report (idea_request : XhsNoteIdeaRequest)
    (edit_batch : XhsImageEditBatchReport) (seo : XhsSEOOptimizedNote) : String :=
  "原始创作意图: " ++ idea_request.idea_text ++ "\n" ++
  "生成笔记标题: " ++ seo.optimized_title ++ "\n" ++
  "生成笔记正文: " ++ seo.optimized_content ++ "\n" ++
  "生成笔记图片顺序: " ++ pyListStr seo.optimized_picture_order ++ "\n" ++
  "生成笔记标签: " ++ pyListStr seo.tags ++ "\n" ++
  "生成笔记图片编辑方案: \n" ++
  String.join (edit_batch.images_edit_plan.map reportImageBlock)

/-- The fixed guard message of `run_xhs_note_flow` for an empty image list. -/
def noImagesMsg : String := "本次请求未上传任何图片"

/-- `f"流程执行失败: {type(exc).__name__}: {str(exc)}"`. -/
def flowErrMsg (e : FlowExc) : String :=
  "流程执行失败: " ++ e.excType ++ ": " ++ e.excMsg

/-- `run_xhs_note_flow`: guard, three phases, aggregation, report assembly,
duration-metric observation on both the success and the exception path.  The
returned event list records executor invocations and metric observations in
order. -/
def run_xhs_note_flow (env : FlowEnv) (req : XhsNoteIdeaRequest) :
    (Option String × String) × List FlowEvent :=
  if req.images.isEmpty then ((none, noImagesMsg), [])
  else
    match run_visual_analysis_phase env req with
    | (Except.error e, ev1) => ((none, flowErrMsg e), ev1 ++ [FlowEvent.metricObserve])
    | (Except.ok (visual_by_id, visual_summary), ev1) =>
      match run_image_edit_phase env req visual_by_id with
      | (Except.error e, ev2) =>
          ((none, flowErrMsg e), ev1 ++ ev2 ++ [FlowEvent.metricObserve])
      | (Except.ok (edit_by_id, edit_summary), ev2) =>
        let pairs := aggregatePairs req visual_by_id edit_by_id
        let visual_batch : XhsVisualBatchReport :=
          ⟨req.idea_text, pairs.map Prod.fst, visual_summary⟩
        let edit_batch : XhsImageEditBatchReport :=
          ⟨pairs.map Prod.snd, edit_summary⟩
        match env.contentKick req.idea_text visual_batch edit_batch with
        | Except.error e =>
            ((none, flowErrMsg e),
             ev1 ++ ev2 ++ [FlowEvent.contentExec, FlowEvent.metricObserve])
        | Except.ok (_, _, seo_note) =>
            ((some (generate_final_report req edit_batch seo_note), ""),
             ev1 ++ ev2 ++ [FlowEvent.contentExec, FlowEvent.metricObserve])

/-! ## Executable string primitives

Python's `str.strip` / `str.startswith` / `str.lower` / splitting, over the
character list of a `String` (the core `String` functions are implemented on
substrings and do not evaluate inside the kernel, so the embedding defines
its own). -/

/-- Python `str.strip()` (whitespace from both ends). -/
def pyStrip (s : String) : String :=
  String.mk (((s.data.dropWhile Char.isWhitespace).reverse.dropWhile
    Char.isWhitespace).reverse)

/-- Prefix test on character lists. -/
def charsStartWith : List Char → List Char → Bool
  | [], _ => true
  | _ :: _, [] => false
  | p :: ps, c :: cs => p == c && charsStartWith ps cs

/-- Python `s.startswith(pre)`. -/
def pyStartsWith (s pre : String) : Bool := charsStartWith pre.data s.data

/-- Python `str.lower()` (ASCII as needed here). -/
def pyToLower (s : String) : String := String.mk (s.data.map Char.toLower)

/-- Splitting on a separator character, accumulator-based. -/
def splitOnCharAux (sep : Char) : List Char → List Char → List (List Char)
  | acc, [] => [acc.reverse]
  | acc, c :: cs =>
      if c == sep then acc.reverse :: splitOnCharAux sep [] cs
      else splitOnCharAux sep (c :: acc) cs

/-- Python `s.split(sep)` for a one-character separator. -/
def splitOnChar (sep : Char) (s : String) : List String :=
  (splitOnCharAux sep [] s.data).map String.mk

/-! ## Local image tool (`app/crews/tools/add_image_tool_local.py`)

The filesystem is an external collaborator: a path either is not a regular
file (`path.is_file()` false), or reading it yields bytes, or the read /
processing raises (`except Exception`).  `Path(...).expanduser().resolve()`
is modelled as the identity on the path string (paths are opaque tokens; the
MIME suffix is computed from the same string the file is looked up under). -/

/-- Outcome of accessing one path on the filesystem collaborator. -/
inductive FileRead where
  | notFile
  | bytes (bs : List Nat)
  | readError (msg : String)
  deriving Repr, DecidableEq

/-- The base64 alphabet. -/
def b64Alphabet : List Char :=
  "ABCDEFGHIJKLMNOPQRSTUVWXYZabcdefghijklmnopqrstuvwxyz0123456789+/".toList

/-- One base64 digit. -/
def b64Char (n : Nat) : Char := b64Alphabet.getD n (Char.ofNat 65)

/-- Standard base64 of a byte sequence (each byte taken mod 256), as produced
by `base64.b64encode` in `_encode_image`. -/
def base64Encode : List Nat → String
  | [] => ""
  | [a] =>
      let a := a % 256
      String.mk [b64Char (a / 4), b64Char (a % 4 * 16)] ++ "=="
  | [a, b] =>
      let a := a % 256
      let b := b % 256
      String.mk [b64Char (a / 4), b64Char (a % 4 * 16 + b / 16), b64Char (b % 16 * 4)] ++ "="
  | a :: b :: c :: rest =>
      let a := a % 256
      let b := b % 256
      let c := c % 256
      String.mk
        [b64Char (a / 4), b64Char (a % 4 * 16 + b / 16),
         b64Char (b % 16 * 4 + c / 64), b64Char (c % 64)] ++ base64Encode rest

/-- The final path component (`PurePath.name` for our opaque posix-style
path strings). -/
def pathName (p : String) : String :=
  match (splitOnChar (Char.ofNat 47) p).getLast? with
  | some s => s
  | none => p

/-- Index (from the start) of the last occurrence of `c`, if any. -/
def lastIdxOf (c : Char) (cs : List Char) : Option Nat :=
  (List.range cs.length).foldl
    (fun acc i => if cs.getD i (Char.ofNat 0) = c then some i else acc)
    none

/-- `PurePath.suffix`: the extension of the final component including the dot,
empty unless the last dot sits strictly inside the name
(`0 < i < len(name) - 1` in the pathlib source). -/
def pathSuffix (p : String) : String :=
  let nm := (pathName p).toList
  match lastIdxOf (Char.ofNat 46) nm with
  | some i => if 0 < i ∧ i < nm.length - 1 then String.mk (nm.drop i) else ""
  | none => ""

/-- MIME inference of `_local_path_to_base64_data_url`: jpeg by default,
png/gif/webp/bmp recognized from the lowercased suffix. -/
def mimeFromSuffix (suffix : String) : String :=
  if suffix = ".png" then "image/png"
  else if suffix = ".gif" then "image/gif"
  else if suffix = ".webp" then "image/webp"
  else if suffix = ".bmp" then "image/bmp"
  else "image/jpeg"

/-- `_local_path_to_base64_data_url`: missing-file message, or the data URL,
or the processing-error message when the read raises. -/
def local_path_to_base64_data_url (fs : String → FileRead) (image_url : String) :
    String :=
  match fs image_url with
  | FileRead.notFile => "图片文件不存在: " ++ image_url
  | FileRead.readError msg => "图片处理失败: " ++ msg
  | FileRead.bytes bs =>
      let b64 := base64Encode bs
      let mime := mimeFromSuffix (pyToLower (pathSuffix image_url))
      "data:" ++ mime ++ ";base64," ++ b64

/-- `AddImageToolLocal._run`: strip the input, pass http(s) URLs through,
otherwise load the local path.  (`_local_path_to_base64_data_url` never
returns `None`, so the `else url` fallback of the source is dead code.) -/
def addImageToolLocalRun (fs : String → FileRead) (image_url : String) : String :=
  let url := pyStrip image_url
  if pyStartsWith url "http://" || pyStartsWith url "https://" then url
  else local_path_to_base64_data_url fs url

/-! ## Task builders (`app/crews/xhs_note/tasks.py`)

The YAML template config is an external data file, modelled as an association
list of task ids to `{description?, expected_output?}` records (each field is
`cfg.get(...)`, hence optional).  `build_visual_analysis_task` and
`build_image_edit_task` call `.format` on `cfg.get("description")` with no
default, so a missing template id makes them raise
`AttributeError` (`None` has no attribute `format`); the two summary builders
use `cfg.get(..., "")` and fall back to empty strings instead. -/

/-- One entry of `tasks.yaml` as seen through `dict.get`. -/
structure TaskCfg where
  description : Option String
  expected_output : Option String
  deriving Repr, DecidableEq

/-- The loaded `tasks.yaml` mapping. -/
def TasksConfig : Type := List (String × TaskCfg)

/-- `_get_task_config`: the entry for the id, or the empty dict. -/
def get_task_config (cfg : TasksConfig) (task_name : String) : TaskCfg :=
  (dictLookup task_name cfg).getD ⟨none, none⟩

/-- The task specification fields the builders populate (prompt text after
substitution and the expected-output contract; agent/schema bindings are
constants per builder and are not modelled). -/
structure TaskSpec where
  description : String
  expected_output : String
  deriving Repr, DecidableEq

/-- A Python exception raised by a task builder. -/
inductive BuildError where
  /-- `AttributeError`: calling `.format` on the `None` returned by
  `cfg.get("description")` when the template id is missing. -/
  | attrNoneFormat
  deriving Repr, DecidableEq

/-- Substitute one `{name}` placeholder by a value, Python-`str.format` style
for the fixed keyword arguments the builders pass. -/
def substPlaceholder (tmpl : String) (nm : String) (val : String) : String :=
  String.intercalate val (tmpl.splitOn ("\x7b" ++ nm ++ "\x7d"))

/-- A double-quoted JSON string (the builders only ever serialize plain
identifiers and paths; escaping is not modelled). -/
def jsonStr (s : String) : String := "\"" ++ s ++ "\""

/-- `json.dumps([{image_id, file_name, local_path}], ensure_ascii=False, indent=2)`
shape used by both per-image builders. -/
def imagesInfoJson (image : XhsImageInput) : String :=
  "[\n  \x7b\n    " ++ jsonStr "image_id" ++ ": " ++ jsonStr image.image_id ++
  ",\n    " ++ jsonStr "file_name" ++ ": " ++ jsonStr image.file_name ++
  ",\n    " ++ jsonStr "local_path" ++ ": " ++ jsonStr image.local_path ++
  "\n  \x7d\n]"

/-- `build_visual_analysis_task`: formats the `task_visual_analysis` template
with `idea_text` and `images_info`; raises `AttributeError` when the template
id is missing from the config. -/
def build_visual_analysis_task (cfg : TasksConfig) (image : XhsImageInput)
    (idea_text : String) : Except BuildError TaskSpec :=
  let c := get_task_config cfg "task_visual_analysis"
  match c.description with
  | none => Except.error BuildError.attrNoneFormat
  | some tmpl =>
      Except.ok
        { description :=
            substPlaceholder (substPlaceholder tmpl "idea_text" idea_text)
              "images_info" (imagesInfoJson image),
          expected_output := (c.expected_output).getD "" }

/-- `build_visual_analysis_summary_task`: empty-string fallbacks, never raises. -/
def build_visual_analysis_summary_task (cfg : TasksConfig) : TaskSpec :=
  let c := get_task_config cfg "task_visual_analysis_summary"
  { description := (c.description).getD "", expected_output := (c.expected_output).getD "" }

/-- The serialized visual analysis handed to `build_image_edit_task`
(`visual.model_dump_json(indent=2)`, opaque). -/
def visualAnalysisJson (v : XhsImageVisualAnalysis) : String :=
  "\x7b " ++ jsonStr "image_id" ++ ": " ++ jsonStr v.image_id ++ ", " ++
  jsonStr "file_name" ++ ": " ++ jsonStr v.file_name ++ ", " ++
  jsonStr "analysis" ++ ": " ++ jsonStr v.payload ++ " \x7d"

/-- `build_image_edit_task`: formats the `task_image_edit_plan` template with
`idea_text`, `images_info` and `visual_analysis`; raises `AttributeError` when
the template id is missing. -/
def build_image_edit_task (cfg : TasksConfig) (idea_text : String)
    (image : XhsImageInput) (visual : XhsImageVisualAnalysis) :
    Except BuildError TaskSpec :=
  let c := get_task_config cfg "task_image_edit_plan"
  match c.description with
  | none => Except.error BuildError.attrNoneFormat
  | some tmpl =>
      Except.ok
        { description :=
            substPlaceholder
              (substPlaceholder (substPlaceholder tmpl "idea_text" idea_text)
                "images_info" (imagesInfoJson image))
              "visual_analysis" (visualAnalysisJson visual),
          expected_output := (c.expected_output).getD "" }

/-- `build_image_edit_plan_summary_task`: empty-string fallbacks, never raises. -/
def build_image_edit_plan_summary_task (cfg : TasksConfig) : TaskSpec :=
  let c := get_task_config cfg "task_image_edit_plan_summary"
  { description := (c.description).getD "", expected_output := (c.expected_output).getD "" }

/-! ## LLM adapter (`app/crews/llm/aliyun_llm.py`)

`AliyunLLM.call` over an abstract HTTP collaborator.  The collaborator is a
map from the global request index (number of `requests.post` calls already
made by this adapter instance) to the outcome of that request.  Python
exception classes are mirrored by `LlmError` constructors; note that
`requests.exceptions.HTTPError` (raised by `response.raise_for_status()`) is
a subclass of `requests.exceptions.RequestException`, so inside the `try`
block it is caught by the `except requests.RequestException` handler. -/

/-- An entry of a request message's list-typed content. -/
inductive PartVal where
  | typed (ty : String) (body : String)
  | dictNoType
  | notDict
  deriving Repr, DecidableEq

/-- The `content` key of one request message: absent, present-but-`None`,
a string, or a list of typed parts. -/
inductive ContentField where
  | absent
  | null
  | strC (s : String)
  | listC (items : List PartVal)
  deriving Repr, DecidableEq

/-- `tool_call["function"]` (both keys via `.get`). -/
structure ToolCallFn where
  fname : Option String
  arguments : Option String
  deriving Repr, DecidableEq

/-- One entry of an assistant message's `tool_calls`. -/
structure ToolCall where
  id : Option String
  function : Option ToolCallFn
  deriving Repr, DecidableEq

/-- One role-tagged request message. -/
structure Message where
  role : String
  content : ContentField
  tool_call_id : Option String
  tool_calls : Option (List ToolCall)
  deriving Repr, DecidableEq

/-- A response message's content value (string or typed-part list). -/
inductive ContentVal where
  | strV (s : String)
  | listV (items : List PartVal)
  deriving Repr, DecidableEq

/-- `choices[0].get("message", {})`: a missing key behaves like both fields
absent. -/
structure RespMessage where
  content : Option ContentVal
  tool_calls : Option (List ToolCall)
  deriving Repr, DecidableEq

/-- One element of `result["choices"]`. -/
structure Choice where
  message : RespMessage
  deriving Repr, DecidableEq

/-- The decoded JSON body of a successful response. -/
structure ApiResult where
  choices : List Choice
  deriving Repr, DecidableEq

/-- Outcome of one `requests.post`. -/
inductive HttpOutcome where
  | status (code : Nat) (body : ApiResult) (text : String)
  | timeout
  | netError (msg : String)
  deriving Repr

/-- The Python exceptions `AliyunLLM.call` can raise (or, for `httpStatus`,
the uncaught `requests.HTTPError` the spec describes; the implementation
never lets it escape unwrapped). -/
inductive LlmError where
  | maxIterations
  | invalidMessage
  | httpStatus (code : Nat)
  | timeoutFinal
  | requestFailed (detail : String)
  | unknownFailure
  | serverError (code : Nat) (text : String)
  | rateLimited (text : String)
  | noChoices
  | toolCallsNoFunctions
  | noContentField
  | emptyRepeated
  | emptySingle
  | missingToolCallId
  | badFnArgs (raw : String)
  deriving Repr, DecidableEq

/-- The user-facing message of each error, from the source strings
(`max_empty_retries = 2` is inlined as the literal `3` of the f-string). -/
def errMessage : LlmError → String
  | LlmError.maxIterations => "Function calling 达到最大迭代次数，可能存在无限循环"
  | LlmError.invalidMessage => "消息格式校验失败"
  | LlmError.httpStatus code => toString code ++ " Error"
  | LlmError.timeoutFinal => "LLM 请求超时"
  | LlmError.requestFailed detail => "LLM 请求失败: " ++ detail
  | LlmError.unknownFailure => "LLM 请求失败：未知错误"
  | LlmError.serverError code text => "LLM 服务器错误 " ++ toString code ++ ": " ++ text
  | LlmError.rateLimited text => "LLM 请求限流: " ++ text
  | LlmError.noChoices => "响应中未找到 choices 字段"
  | LlmError.toolCallsNoFunctions => "响应包含 tool_calls 但未提供 available_functions，无法执行工具调用"
  | LlmError.noContentField => "响应中未找到 content 字段"
  | LlmError.emptyRepeated => "LLM 连续 3 次返回空内容，可能是模型限流或异常，请稍后重试或检查 API 配额"
  | LlmError.emptySingle => "LLM 返回空内容，可能是模型限流或偶发异常，请稍后重试或检查 API 配额"
  | LlmError.missingToolCallId => "tool_call 缺少 id"
  | LlmError.badFnArgs _ => "无法解析函数参数"

/-- `str(e)` of the `requests.HTTPError` raised by `raise_for_status` (the
reason phrase and URL appended by the requests library are abstracted). -/
def httpErrorStr (code : Nat) : String := toString code ++ " Error"

/-- Whether a list-typed content passes `_validate_messages` (each item a
dict carrying a `type`). -/
def contentItemsOk : ContentField → Bool
  | ContentField.listC items =>
      items.all fun it =>
        match it with
        | PartVal.typed _ _ => true
        | _ => false
  | _ => true

/-- Whether the `content` key is present (`"content" in msg`). -/
def contentKeyPresent : ContentField → Bool
  | ContentField.absent => false
  | _ => true

/-- `_validate_messages`, one message: recognized role; `tool` messages need
a correlation id and a content key; other messages need a content key or a
`tool_calls` list; list-typed content items must each declare a `type`. -/
def validMessage (m : Message) : Bool :=
  (m.role == "system" || m.role == "user" || m.role == "assistant" || m.role == "tool") &&
  (if m.role == "tool" then
    (m.tool_call_id).isSome && contentKeyPresent m.content
  else if !(contentKeyPresent m.content) && (m.tool_calls).isNone then
    false
  else
    contentItemsOk m.content)

/-- `_validate_messages` over the exchange (the source raises a `ValueError`
naming the first offending index; only accept/reject is modelled). -/
def validateMessages (ms : List Message) : Bool := ms.all validMessage

/-- The HTTP retry loop of `call` (lines 117–202): `left` is the number of
attempts still allowed (initially `retry_count + 1`); `idx` is the global
request counter; `lastExc` is `last_exception`.  A 5xx or 429 with attempts
remaining retries; on the final attempt `raise_for_status` raises an
`HTTPError` that the `except requests.RequestException` handler wraps into
`RuntimeError(f"LLM 请求失败: {e}")`.  A non-429 4xx calls
`raise_for_status` directly, whose `HTTPError` is likewise caught by that
handler — and therefore retried while attempts remain. -/
def attemptLoop (http : Nat → HttpOutcome) (idx : Nat) :
    Nat → Option LlmError → Except LlmError ApiResult × Nat
  | 0, lastExc => (Except.error (lastExc.getD LlmError.unknownFailure), idx)
  | Nat.succ rest, _lastExc =>
    match http idx with
    | HttpOutcome.timeout =>
        if rest > 0 then
          attemptLoop http (idx + 1) rest (some LlmError.timeoutFinal)
        else (Except.error LlmError.timeoutFinal, idx + 1)
    | HttpOutcome.netError msg =>
        if rest > 0 then
          attemptLoop http (idx + 1) rest (some (LlmError.requestFailed msg))
        else (Except.error (LlmError.requestFailed msg), idx + 1)
    | HttpOutcome.status code body text =>
        if code ≥ 500 then
          if rest > 0 then
            attemptLoop http (idx + 1) rest
              (some (LlmError.serverError code (text.take 200)))
          else (Except.error (LlmError.requestFailed (httpErrorStr code)), idx + 1)
        else if code = 429 then
          if rest > 0 then
            attemptLoop http (idx + 1) rest (some (LlmError.rateLimited (text.take 200)))
          else (Except.error (LlmError.requestFailed (httpErrorStr code)), idx + 1)
        else if code ≥ 400 then
          if rest > 0 then
            attemptLoop http (idx + 1) rest
              (some (LlmError.requestFailed (httpErrorStr code)))
          else (Except.error (LlmError.requestFailed (httpErrorStr code)), idx + 1)
        else (Except.ok body, idx + 1)

/-- Adapter configuration (model ids and retry bound). -/
structure CallCfg where
  model : String
  image_model : String
  retry_count : Nat
  deriving Repr

/-- External collaborators of one `call`: the HTTP endpoint and the JSON
parser used on tool-call argument strings. -/
structure CallEnv where
  http : Nat → HttpOutcome
  jsonParseOk : String → Bool

/-- `available_functions`: name → callable; the callable receives the raw
argument string and either returns a result or raises. -/
def FnTable : Type := List (String × (String → Except String String))

/-- A `tool` role result message fed back into the conversation. -/
def toolResultMsg (tcid : String) (content : String) : Message :=
  { role := "tool", content := ContentField.strC content,
    tool_call_id := some tcid, tool_calls := none }

/-- The assistant message `_handle_function_calls` appends before executing
the calls (`content: None` plus the pending `tool_calls`). -/
def assistantToolMsg (tcs : List ToolCall) : Message :=
  { role := "assistant", content := ContentField.null,
    tool_call_id := none, tool_calls := some tcs }

/-- One iteration of the tool-call loop in `_handle_function_calls`: missing
id is a `ValueError`; an unknown (or `None`) function name degrades to an
inline "函数 … 不可用" tool message; malformed JSON arguments are a
`ValueError`; a raising function degrades to "函数执行错误: …". -/
def processToolCall (env : CallEnv) (fns : FnTable) (tc : ToolCall) :
    Except LlmError Message :=
  let fnInfo := (tc.function).getD ⟨none, none⟩
  match tc.id with
  | none => Except.error LlmError.missingToolCallId
  | some tcid =>
    match fnInfo.fname with
    | some nm =>
      match dictLookup nm fns with
      | some f =>
          let raw := (fnInfo.arguments).getD "\x7b\x7d"
          if pyStrip raw ≠ "" && !(env.jsonParseOk raw) then
            Except.error (LlmError.badFnArgs raw)
          else
            let res :=
              match f raw with
              | Except.ok r => r
              | Except.error e => "函数执行错误: " ++ e
            Except.ok (toolResultMsg tcid res)
      | none => Except.ok (toolResultMsg tcid ("函数 " ++ nm ++ " 不可用"))
    | none => Except.ok (toolResultMsg tcid "函数 None 不可用")

/-- The whole tool-call loop, collecting the appended `tool` messages. -/
def processToolCalls (env : CallEnv) (fns : FnTable) :
    List ToolCall → Except LlmError (List Message)
  | [] => Except.ok []
  | tc :: rest =>
    match processToolCall env fns tc with
    | Except.error e => Except.error e
    | Except.ok m =>
      match processToolCalls env fns rest with
      | Except.error e => Except.error e
      | Except.ok ms => Except.ok (m :: ms)

mutual

/-- `AliyunLLM.call`, returning the resolved content (or the raised
exception) together with the advanced request counter.  `retryOnEmpty` and
`emptyRetryCnt` are `_retry_on_empty` / `kwargs["_empty_retry_count"]`;
callbacks are side-effect-only and not modelled.  The guard `max_iterations
<= 0` raises the max-iterations `RuntimeError` before anything else. -/
def llmCall (cfg : CallCfg) (env : CallEnv) (fns : Option FnTable)
    (messages : List Message) (maxIter : Nat) (retryOnEmpty : Bool)
    (emptyRetryCnt : Nat) (idx : Nat) : Except LlmError ContentVal × Nat :=
  match maxIter with
  | 0 => (Except.error LlmError.maxIterations, idx)
  | Nat.succ prevIter =>
    if !(validateMessages messages) then (Except.error LlmError.invalidMessage, idx)
    else
      match attemptLoop env.http idx (cfg.retry_count + 1) none with
      | (Except.error e, idx2) => (Except.error e, idx2)
      | (Except.ok result, idx2) =>
        match result.choices.head? with
        | none => (Except.error LlmError.noChoices, idx2)
        | some choice =>
          match choice.message.tool_calls with
          | some tcs =>
            match fns with
            | some table => llmHandle cfg env table tcs messages prevIter idx2
            | none => (Except.error LlmError.toolCallsNoFunctions, idx2)
          | none =>
            match choice.message.content with
            | none => (Except.error LlmError.noContentField, idx2)
            | some (ContentVal.strV s) =>
              if pyStrip s = "" then
                match retryOnEmpty with
                | true =>
                  if emptyRetryCnt ≥ 2 then (Except.error LlmError.emptyRepeated, idx2)
                  else
                    llmCall cfg env fns messages (Nat.succ prevIter) false
                      (emptyRetryCnt + 1) idx2
                | false => (Except.error LlmError.emptySingle, idx2)
              else (Except.ok (ContentVal.strV s), idx2)
            | some c => (Except.ok c, idx2)
  termination_by 2 * maxIter + (if retryOnEmpty then 1 else 0)

/-- `AliyunLLM._handle_function_calls`: guard on the iteration counter,
append the assistant message and the tool-result messages, then recurse into
`call` with `max_iterations - 1` (and default `_retry_on_empty=True`,
`_empty_retry_count=0`). -/
def llmHandle (cfg : CallCfg) (env : CallEnv) (fns : FnTable)
    (tool_calls : List ToolCall) (messages : List Message) (maxIter : Nat)
    (idx : Nat) : Except LlmError ContentVal × Nat :=
  match maxIter with
  | 0 => (Except.error LlmError.maxIterations, idx)
  | Nat.succ prevIter =>
    match processToolCalls env fns tool_calls with
    | Except.error e => (Except.error e, idx)
    | Except.ok toolMsgs =>
        llmCall cfg env (some fns)
          (messages ++ assistantToolMsg tool_calls :: toolMsgs)
          prevIter true 0 idx
  termination_by 2 * maxIter + 1

end

/-! ## Multimodal normalization and model switch — modelled from the spec

`Modelled from the spec:` the repository's multimodal handling inside the
adapter (`AliyunLLM._normalize_multimodal_tool_result`, the `image_model`
constructor parameter, and the vision-model substitution in the request
payload) is referenced by the unit tests (`tests/unit/test_llm.py`), by
`get_llm` (`app/crews/llm/__init__.py`, which passes `image_model=...` to the
constructor) and by the agent registry, but the method and parameter are
absent from `src`'s copy of `aliyun_llm.py`.  The definitions below follow
spec §4.1: "when any message in the exchange carries an image reference
(either a data URL or a bare HTTP(S) URL emitted by an image-loading tool
call), the adapter rewrites that message's content into the multimodal
part-list form expected by the endpoint, and substitutes a vision-capable
model id for that request only — text-only exchanges keep the configured
text model." -/

/-- Modelled from the spec: a token is an image reference when it is a data
URL or a bare HTTP(S) URL. -/
def tokenIsImageRef (t : String) : Bool :=
  pyStartsWith t "data:image/" || pyStartsWith t "http://" || pyStartsWith t "https://"

/-- Modelled from the spec: the first image reference carried by a string
content (whitespace-separated scan, as the references are emitted as tokens
by the image-loading tool). -/
def strImageRef (s : String) : Option String :=
  (splitOnChar (Char.ofNat 32) s).find? tokenIsImageRef

/-- Modelled from the spec: the image reference carried by a message, if
any. -/
def msgImageRef (m : Message) : Option String :=
  match m.content with
  | ContentField.strC s => strImageRef s
  | _ => none

/-- Modelled from the spec: whether a message is image-bearing. -/
def isImageBearing (m : Message) : Bool := (msgImageRef m).isSome

/-- Modelled from the spec: rewrite an image-bearing message's content into
the part-list form expected by the endpoint (a text part and an image part);
other messages are untouched. -/
def rewriteMultimodal (m : Message) : Message :=
  match msgImageRef m with
  | some url =>
      { m with
        content := ContentField.listC
          [PartVal.typed "text"
            (match m.content with
             | ContentField.strC s => s
             | _ => ""),
           PartVal.typed "image_url" url] }
  | none => m

/-- Modelled from the spec: `_normalize_multimodal_tool_result` — the
rewritten exchange plus the flag telling whether any image content was
found. -/
def normalizeMultimodalToolResult (msgs : List Message) :
    List Message × Bool :=
  (msgs.map rewriteMultimodal, msgs.any isImageBearing)

/-- An outgoing chat-completion payload (the fields the claim observes). -/
structure Payload where
  model : String
  messages : List Message
  deriving Repr

/-- Modelled from the spec: the payload construction of `call` with the
vision-model substitution — the vision model id exactly when the exchange
carries image content, the text model id otherwise. -/
def buildMultimodalPayload (cfg : CallCfg) (msgs : List Message) : Payload :=
  let nf := normalizeMultimodalToolResult msgs
  { model := if nf.2 then cfg.image_model else cfg.model, messages := nf.1 }

/-- Whether a message's content is a part list containing an image part. -/
def hasImagePartList (m : Message) : Bool :=
  match m.content with
  | ContentField.listC items =>
      items.any fun it =>
        match it with
        | PartVal.typed ty _ => ty == "image_url"
        | _ => false
  | _ => false

/-! ## Concrete fixtures used by witnesses and counterexamples -/

/-- A sample uploaded image. -/
def img0 : XhsImageInput := ⟨"img_0", "a.jpg", "/tmp/xhs/a.jpg"⟩

/-- A second sample uploaded image. -/
def img1 : XhsImageInput := ⟨"img_1", "b.png", "/tmp/xhs/b.png"⟩

/-- A visual analysis for `img0`. -/
def va0 : XhsImageVisualAnalysis := ⟨"img_0", "a.jpg", "海边落日"⟩

/-- A visual analysis for `img1`. -/
def va1 : XhsImageVisualAnalysis := ⟨"img_1", "b.png", "街头咖啡"⟩

/-- An edit plan for `img0`. -/
def ep0 : XhsImageEditPlan :=
  ⟨"img_0", "a.jpg", "暖色调", "居中裁剪", "提升亮度", "日系滤镜", "左上标题", "自然美颜", true, "避免过曝"⟩

/-- An edit plan for `img1`. -/
def ep1 : XhsImageEditPlan :=
  ⟨"img_1", "b.png", "冷色调", "三分法", "降低饱和", "胶片滤镜", "不加文字", "无需美颜", false, "无"⟩

/-- An SEO result. -/
def seo0 : XhsSEOOptimizedNote := ⟨"要点", "标题", "正文", ["img_0"], ["美食"]⟩

/-- A flow environment whose three executors all succeed, analyzing and
editing only `img0`. -/
def happyEnv : FlowEnv :=
  { visualKick := fun _ => Except.ok [⟨some va0, some "va raw"⟩, ⟨none, some "视觉总结"⟩],
    editKick := fun _ _ => Except.ok [⟨some ep0, some "ep raw"⟩, ⟨none, some "编辑总结"⟩],
    contentKick := fun _ _ _ => Except.ok (⟨"策略"⟩, ⟨"文案"⟩, seo0) }

/-- A filesystem with no files. -/
def fsEmpty : String → FileRead := fun _ => FileRead.notFile

/-- A filesystem holding one readable png file. -/
def fsOnePng : String → FileRead := fun p =>
  if p = "/tmp/xhs/b.PNG" then FileRead.bytes [77, 97, 110] else FileRead.notFile

/-- A plain user message. -/
def userMsg : Message := ⟨"user", ContentField.strC "测试消息", none, none⟩

/-- A response body with a single string-content choice. -/
def okBody (s : String) : ApiResult := ⟨[⟨⟨some (ContentVal.strV s), none⟩⟩]⟩

/-- Adapter configuration with a given retry count. -/
def cfgR (rc : Nat) : CallCfg := ⟨"qwen-plus", "qwen3-vl-plus", rc⟩

/-- An endpoint giving the same outcome to every request. -/
def envConst (o : HttpOutcome) : CallEnv := ⟨fun _ => o, fun _ => true⟩

/-- The P3 mock endpoint: HTTP 500 for the first `n` requests, 200 with a
successful body afterwards. -/
def env500then200 (n : Nat) : CallEnv :=
  ⟨fun i => if i < n then HttpOutcome.status 500 ⟨[]⟩ "ISE"
            else HttpOutcome.status 200 (okBody "成功") "OK",
   fun _ => true⟩

/-- A tool call with an id and a known function name. -/
def tc0 : ToolCall := ⟨some "call_1", some ⟨some "echo_fn", some "\x7b\x7d"⟩⟩

/-- A response body whose only choice requests `tc0` again. -/
def toolBody : ApiResult := ⟨[⟨⟨some (ContentVal.strV ""), some [tc0]⟩⟩]⟩

/-- An endpoint that answers every request with another tool-call request. -/
def envToolLoop : CallEnv := ⟨fun _ => HttpOutcome.status 200 toolBody "OK", fun _ => true⟩

/-- A function table resolving `echo_fn`. -/
def fnsEcho : FnTable := [("echo_fn", fun _ => Except.ok "echoed")]

/-- The two-image request used by the join witness. -/
def reqTwo : XhsNoteIdeaRequest := ⟨"地中海饮食", [img0, img1]⟩

/-- Visual-phase outputs for the join witness: both images parsed, plus the
summary task's raw output. -/
def voutsW : List (TaskOut XhsImageVisualAnalysis) :=
  [⟨some va0, some "r0"⟩, ⟨some va1, some "r1"⟩, ⟨none, some "视觉总结"⟩]

/-- Edit-phase outputs for the join witness: only `img0` parsed. -/
def eoutsW : List (TaskOut XhsImageEditPlan) :=
  [⟨some ep0, some "r2"⟩, ⟨none, some "编辑总结"⟩]

/-! # Theorems -/

/-- A successful lookup binds a pair of the association list. -/
theorem dictLookup_mem {α : Type} (k : String) (m : List (String × α)) (v : α)
    (h : dictLookup k m = some v) : (k, v) ∈ m := by
  induction m with
  | nil => simp [dictLookup] at h
  | cons kv rest ih =>
    rcases kv with ⟨k2, v2⟩
    by_cases hk : k = k2
    · subst hk
      simp [dictLookup] at h
      subst h
      exact List.mem_cons_self _ _
    · simp [dictLookup, hk] at h
      exact List.mem_cons_of_mem _ (ih h)

/-- Every pair of a harvested map is keyed by its own value's id. -/
theorem harvestById_keyed {α : Type} (getId : α → String)
    (outs : List (TaskOut α)) :
    ∀ kv ∈ harvestById getId outs, kv.1 = getId kv.2 := by
  unfold harvestById
  generalize (if outs.length > 1 then outs.dropLast else outs) = per
  have main : ∀ (per : List (TaskOut α)) (init : List (String × α)),
      (∀ kv ∈ init, kv.1 = getId kv.2) →
      ∀ kv ∈ per.foldl
        (fun m o =>
          match o.pydantic with
          | some v => dictInsert m (getId v) v
          | none => m) init, kv.1 = getId kv.2 := by
    intro per
    induction per with
    | nil => intro init hinit kv hkv; exact hinit kv hkv
    | cons o os ih =>
      intro init hinit kv hkv
      refine ih _ ?_ kv hkv
      cases ho : o.pydantic with
      | none => simpa [ho] using hinit
      | some v =>
        intro kv2 hkv2
        rcases List.mem_cons.mp (by simpa [ho, dictInsert] using hkv2) with h | h
        · subst h; rfl
        · exact hinit kv2 h
  exact main per [] (by intro kv h; simp at h)

/-- Looking a key up in a harvested map returns a value carrying that key as
its own id. -/
theorem harvest_lookup_keyed {α : Type} (getId : α → String)
    (outs : List (TaskOut α)) (k : String) (v : α)
    (h : dictLookup k (harvestById getId outs) = some v) : getId v = k :=
  (harvestById_keyed getId outs (k, v) (dictLookup_mem _ _ _ h)).symm

/-- The ids of the aggregation are exactly the ids of the request images
present in both maps, in request order. -/
theorem aggregate_ids_eq (vmap : List (String × XhsImageVisualAnalysis))
    (emap : List (String × XhsImageEditPlan))
    (hkeyE : ∀ k v, dictLookup k emap = some v → v.image_id = k)
    (t : String) (imgs : List XhsImageInput) :
    (aggregatePairs ⟨t, imgs⟩ vmap emap).map (fun pr => pr.2.image_id)
      = (imgs.filter (fun img => (dictLookup img.image_id vmap).isSome &&
          (dictLookup img.image_id emap).isSome)).map (fun img => img.image_id) := by
  induction imgs with
  | nil => rfl
  | cons a as ih =>
    simp only [aggregatePairs] at ih ⊢
    rw [List.filterMap_cons, List.filter_cons]
    cases hv : dictLookup a.image_id vmap with
    | none => simpa [hv] using ih
    | some v =>
      cases he : dictLookup a.image_id emap with
      | none => simpa [hv, he] using ih
      | some p =>
        have hp : p.image_id = a.image_id := hkeyE _ _ he
        simpa [hv, he, hp] using ih

/-- **C1** — Join-by-key: over the maps harvested from the two per-image
phases, (i) an image whose `image_id` is absent from the visual-analysis map
never has an edit-plan task built for it; (ii) the aggregated batch (which
the final report's per-image section iterates in order) lists exactly the
request images present in both maps, in original request order; (iii) under
the request invariant that `image_id`s are unique, an image present in both
maps appears in the aggregation exactly once; (iv) an image present in
neither or only one map is dropped (count zero) without error. -/
theorem join_by_key (req : XhsNoteIdeaRequest)
    (vouts : List (TaskOut XhsImageVisualAnalysis))
    (eouts : List (TaskOut XhsImageEditPlan))
    (hnodup : (req.images.map (fun i => i.image_id)).Nodup) :
    (∀ img ∈ req.images,
      dictLookup img.image_id (harvestById (fun v => v.image_id) vouts) = none →
      ∀ pr ∈ editTaskArgs req (harvestById (fun v => v.image_id) vouts),
        pr.1.image_id ≠ img.image_id) ∧
    ((aggregatePairs req (harvestById (fun v => v.image_id) vouts)
        (harvestById (fun p => p.image_id) eouts)).map (fun pr => pr.2.image_id)
      = (req.images.filter (fun img =>
          (dictLookup img.image_id (harvestById (fun v => v.image_id) vouts)).isSome &&
          (dictLookup img.image_id (harvestById (fun p => p.image_id) eouts)).isSome)).map
            (fun img => img.image_id)) ∧
    (∀ img ∈ req.images,
      (dictLookup img.image_id (harvestById (fun v => v.image_id) vouts)).isSome →
      (dictLookup img.image_id (harvestById (fun p => p.image_id) eouts)).isSome →
      ((aggregatePairs req (harvestById (fun v => v.image_id) vouts)
        (harvestById (fun p => p.image_id) eouts)).map
          (fun pr => pr.2.image_id)).count img.image_id = 1) ∧
    (∀ img ∈ req.images,
      (dictLookup img.image_id (harvestById (fun v => v.image_id) vouts) = none ∨
       dictLookup img.image_id (harvestById (fun p => p.image_id) eouts) = none) →
      ((aggregatePairs req (harvestById (fun v => v.image_id) vouts)
        (harvestById (fun p => p.image_id) eouts)).map
          (fun pr => pr.2.image_id)).count img.image_id = 0) := by
  rcases req with ⟨t, imgs⟩
  have hkeyE := harvest_lookup_keyed (fun p => p.image_id) eouts
  have hids := aggregate_ids_eq (harvestById (fun v => v.image_id) vouts)
    (harvestById (fun p => p.image_id) eouts) hkeyE t imgs
  refine ⟨?_, hids, ?_, ?_⟩
  · intro img himg hnone pr hpr
    rcases List.mem_filterMap.mp hpr with ⟨a, ha, hfa⟩
    rcases Option.map_eq_some'.mp hfa with ⟨v, hv, hav⟩
    intro hid
    have : pr.1 = a := by rw [← hav]
    rw [this] at hid
    rw [← hid] at hnone
    rw [hnone] at hv
    exact Option.noConfusion hv
  · intro img himg hvs hes
    rw [hids]
    have hmemf : img ∈ imgs.filter (fun img =>
        (dictLookup img.image_id (harvestById (fun v => v.image_id) vouts)).isSome &&
        (dictLookup img.image_id (harvestById (fun p => p.image_id) eouts)).isSome) :=
      List.mem_filter.mpr ⟨himg, by rw [hvs, hes]; rfl⟩
    have hsub : List.Sublist
        ((imgs.filter (fun img =>
          (dictLookup img.image_id (harvestById (fun v => v.image_id) vouts)).isSome &&
          (dictLookup img.image_id (harvestById (fun p => p.image_id) eouts)).isSome)).map
            (fun img => img.image_id))
        (imgs.map (fun i => i.image_id)) :=
      List.Sublist.map _ (List.filter_sublist imgs)
    have hnd := List.Nodup.sublist hsub hnodup
    exact List.count_eq_one_of_mem hnd (List.mem_map_of_mem _ hmemf)
  · intro img himg hnone
    rw [hids, List.count_eq_zero]
    intro hmem
    rcases List.mem_map.mp hmem with ⟨b, hbf, hbid⟩
    have hb := (List.mem_filter.mp hbf).2
    rcases hnone with h | h <;>
      (rw [← hbid] at h; rw [h] at hb; simp at hb)

/-- A message that does not carry an image reference is left untouched by
the multimodal rewrite. -/
theorem rewriteMultimodal_eq_self (m : Message) (h : isImageBearing m = false) :
    rewriteMultimodal m = m := by
  unfold isImageBearing at h
  unfold rewriteMultimodal
  cases hm : msgImageRef m with
  | none => rfl
  | some url => rw [hm] at h; simp at h

/-- An image-bearing message is rewritten into part-list form containing an
image part. -/
theorem rewriteMultimodal_partList (m : Message) (h : isImageBearing m = true) :
    hasImagePartList (rewriteMultimodal m) = true := by
  unfold isImageBearing at h
  cases hm : msgImageRef m with
  | none => rw [hm] at h; simp at h
  | some url => simp [rewriteMultimodal, hm, hasImagePartList]

/-- **C2** — Multimodal model switch (modelled from the spec, as the
multimodal handling is absent from `src`'s adapter copy): an exchange
containing an image-bearing message (data URL or bare HTTP(S) URL) yields a
payload carrying the configured vision model id, with every image-bearing
message rewritten into multimodal part-list form; an exchange with no image
content yields the configured text model id with the messages unchanged. -/
theorem multimodal_model_switch (cfg : CallCfg) (msgs : List Message) :
    ((msgs.any isImageBearing) = true →
      (buildMultimodalPayload cfg msgs).model = cfg.image_model) ∧
    ((msgs.any isImageBearing) = false →
      (buildMultimodalPayload cfg msgs).model = cfg.model ∧
      (buildMultimodalPayload cfg msgs).messages = msgs) ∧
    ((buildMultimodalPayload cfg msgs).messages.length = msgs.length) ∧
    (∀ m ∈ msgs, isImageBearing m = true →
      hasImagePartList (rewriteMultimodal m) = true ∧
      rewriteMultimodal m ∈ (buildMultimodalPayload cfg msgs).messages) := by
  refine ⟨fun h => ?_, fun h => ⟨?_, ?_⟩, ?_, fun m hm hb => ⟨?_, ?_⟩⟩
  · simp [buildMultimodalPayload, normalizeMultimodalToolResult, h]
  · simp [buildMultimodalPayload, normalizeMultimodalToolResult, h]
  · have hall : ∀ m ∈ msgs, rewriteMultimodal m = m := by
      intro m hm
      refine rewriteMultimodal_eq_self m ?_
      rcases Bool.eq_false_or_eq_true (isImageBearing m) with ht | hf
      · exact absurd (List.any_eq_true.mpr ⟨m, hm, ht⟩) (by rw [h]; exact Bool.false_ne_true)
      · exact hf
    show msgs.map rewriteMultimodal = msgs
    exact (List.map_congr_left hall).trans (List.map_id msgs)
  · simp [buildMultimodalPayload, normalizeMultimodalToolResult]
  · exact rewriteMultimodal_partList m hb
  · exact List.mem_map_of_mem rewriteMultimodal hm

/-- An image-bearing exchange as the adapter sees it after an
image-loading tool call. -/
def msgsImg : List Message :=
  [userMsg,
   ⟨"assistant",
    ContentField.strC "add_image_to_content_local data:image/jpeg;base64,/9j/test",
    none, none⟩]

/-- **C2 witness** -/
theorem multimodal_model_switch_witness :
    (buildMultimodalPayload (cfgR 3) msgsImg).model = "qwen3-vl-plus" ∧
    (buildMultimodalPayload (cfgR 3) [userMsg]).model = "qwen-plus" ∧
    (buildMultimodalPayload (cfgR 3) [userMsg]).messages = [userMsg] :=
  ⟨(multimodal_model_switch (cfgR 3) msgsImg).1 (by decide),
   ((multimodal_model_switch (cfgR 3) [userMsg]).2.1 (by decide)).1,
   ((multimodal_model_switch (cfgR 3) [userMsg]).2.1 (by decide)).2⟩

/-- **C3 (code behavior)** — A 4xx other than 429 is retried, contrary to
spec/comments: with `retry_count = 1` and an endpoint answering HTTP 400 to
every request, the adapter makes two HTTP requests (the `HTTPError` raised
by `raise_for_status` is a `RequestException` and is caught by the generic
retry handler) and finally raises the wrapping
`RuntimeError("LLM 请求失败: …")`. -/
theorem http400_retried :
    llmCall (cfgR 1) (envConst (HttpOutcome.status 400 ⟨[]⟩ "Bad Request")) none
      [userMsg] 10 true 0 0
      = (Except.error (LlmError.requestFailed (httpErrorStr 400)), 2) := by
  simp [llmCall, attemptLoop, envConst, cfgR, validateMessages, validMessage,
    contentItemsOk, contentKeyPresent, userMsg]

/-- The retry loop on the `500-for-the-first-n` endpoint succeeds when the
success request index `n` falls inside the attempt window. -/
theorem attemptLoop_500_ok (n : Nat) :
    ∀ (left idx : Nat) (le : Option LlmError), idx ≤ n → n < idx + left →
      attemptLoop (env500then200 n).http idx left le
        = (Except.ok (okBody "成功"), n + 1) := by
  intro left
  induction left with
  | zero => intro idx le h1 h2; omega
  | succ rest ih =>
    intro idx le h1 h2
    by_cases hlt : idx < n
    · have hhttp : (env500then200 n).http idx = HttpOutcome.status 500 ⟨[]⟩ "ISE" := by
        simp [env500then200, hlt]
      have hrest : 0 < rest := by omega
      rw [attemptLoop, hhttp]
      simp only [ge_iff_le, Nat.le_refl, if_true, gt_iff_lt, hrest]
      exact ih (idx + 1) _ (by omega) (by omega)
    · have heq : idx = n := by omega
      subst heq
      have hhttp : (env500then200 idx).http idx = HttpOutcome.status 200 (okBody "成功") "OK" := by
        simp [env500then200]
      rw [attemptLoop, hhttp]
      norm_num

/-- The retry loop on the `500-for-the-first-n` endpoint exhausts all its
attempts when the window ends before request `n`, and raises the wrapped
request-failure error of the final attempt. -/
theorem attemptLoop_500_err (n : Nat) :
    ∀ (left idx : Nat) (le : Option LlmError), 0 < left → idx + left ≤ n →
      attemptLoop (env500then200 n).http idx left le
        = (Except.error (LlmError.requestFailed (httpErrorStr 500)), idx + left) := by
  intro left
  induction left with
  | zero => intro idx le h1 h2; omega
  | succ rest ih =>
    intro idx le _ h2
    have hlt : idx < n := by omega
    have hhttp : (env500then200 n).http idx = HttpOutcome.status 500 ⟨[]⟩ "ISE" := by
      simp [env500then200, hlt]
    rcases Nat.eq_zero_or_pos rest with hz | hp
    · subst hz
      rw [attemptLoop, hhttp]
      norm_num
    · rw [attemptLoop, hhttp]
      simp only [ge_iff_le, Nat.le_refl, if_true, gt_iff_lt, hp]
      rw [ih (idx + 1) (some (LlmError.serverError 500 ("ISE".take 200))) hp (by omega)]
      congr 1
      omega

/-- A first completion round whose HTTP phase succeeds with a non-blank
string content returns that content. -/
theorem llmCall_of_attempt_ok (cfg : CallCfg) (env : CallEnv) (fns : Option FnTable)
    (msgs : List Message) (k idx idx2 : Nat) (b : Bool) (c : Nat) (s : String)
    (hv : validateMessages msgs = true)
    (hal : attemptLoop env.http idx (cfg.retry_count + 1) none = (Except.ok (okBody s), idx2))
    (hs : ¬ (pyStrip s = "")) :
    llmCall cfg env fns msgs (k + 1) b c idx = (Except.ok (ContentVal.strV s), idx2) := by
  rw [llmCall.eq_def]
  simp only [hv, Bool.not_true, Bool.false_eq_true, if_false, hal, okBody]
  simp [hs]

/-- A first completion round whose HTTP phase raises propagates that
exception with the same request count. -/
theorem llmCall_of_attempt_err (cfg : CallCfg) (env : CallEnv) (fns : Option FnTable)
    (msgs : List Message) (k idx idx2 : Nat) (b : Bool) (c : Nat) (e : LlmError)
    (hv : validateMessages msgs = true)
    (hal : attemptLoop env.http idx (cfg.retry_count + 1) none = (Except.error e, idx2)) :
    llmCall cfg env fns msgs (k + 1) b c idx = (Except.error e, idx2) := by
  rw [llmCall.eq_def]
  simp only [hv, Bool.not_true, Bool.false_eq_true, if_false, hal]

/-- **C4 counterexample** — With `retry_count = 0` against an endpoint whose
first response is HTTP 500, the adapter raises the wrapping
`RuntimeError("LLM 请求失败: <HTTPError>")` — the HTTP error of the final
attempt is *not* raised as-is (`raise_for_status`'s `HTTPError` is a
`RequestException` and is re-wrapped by that handler). -/
theorem http_error_wrapped_on_exhaustion :
    llmCall (cfgR 0) (env500then200 1) none [userMsg] 10 true 0 0
      = (Except.error (LlmError.requestFailed (httpErrorStr 500)), 1) ∧
    (llmCall (cfgR 0) (env500then200 1) none [userMsg] 10 true 0 0).1
      ≠ Except.error (LlmError.httpStatus 500) := by
  have h : llmCall (cfgR 0) (env500then200 1) none [userMsg] 10 true 0 0
      = (Except.error (LlmError.requestFailed (httpErrorStr 500)), 1) := by
    have hal := attemptLoop_500_err 1 1 0 none (by omega) (by omega)
    exact llmCall_of_attempt_err (cfgR 0) (env500then200 1) none [userMsg] 9 0 1
      true 0 _ (by decide) hal
  refine ⟨h, ?_⟩
  rw [h]
  intro hc
  exact LlmError.noConfusion (Except.error.inj hc)

/-- **C4 (amended)** — Retry bound: against an endpoint returning HTTP 500
for the first `n` requests and 200 on request `n + 1`, the adapter succeeds
(after exactly `n + 1` requests) iff `n ≤ retry_count`; when `n >
retry_count` every one of the `retry_count + 1` attempts sees a 5xx and the
final attempt's HTTP error is raised wrapped in the generic
`RuntimeError("LLM 请求失败: …")` (not as-is). -/
theorem retry_bound (n rc : Nat) :
    (n ≤ rc →
      llmCall (cfgR rc) (env500then200 n) none [userMsg] 10 true 0 0
        = (Except.ok (ContentVal.strV "成功"), n + 1)) ∧
    (rc < n →
      llmCall (cfgR rc) (env500then200 n) none [userMsg] 10 true 0 0
        = (Except.error (LlmError.requestFailed (httpErrorStr 500)), rc + 1)) := by
  constructor
  · intro h
    have hal := attemptLoop_500_ok n (rc + 1) 0 none (by omega) (by omega)
    exact llmCall_of_attempt_ok (cfgR rc) (env500then200 n) none [userMsg] 9 0 (n + 1)
      true 0 "成功" (by decide) hal (by decide)
  · intro h
    have hal := attemptLoop_500_err n (rc + 1) 0 none (by omega) (by omega)
    have h2 := llmCall_of_attempt_err (cfgR rc) (env500then200 n) none [userMsg] 9 0 _
      true 0 _ (by decide) hal
    simpa using h2

/-- **C4 witness** -/
theorem retry_bound_witness :
    llmCall (cfgR 1) (env500then200 1) none [userMsg] 10 true 0 0
      = (Except.ok (ContentVal.strV "成功"), 2) ∧
    llmCall (cfgR 1) (env500then200 2) none [userMsg] 10 true 0 0
      = (Except.error (LlmError.requestFailed (httpErrorStr 500)), 2) :=
  ⟨(retry_bound 1 1).1 (by decide), (retry_bound 2 1).2 (by decide)⟩

/-- **C5 (code behavior)** — Against an endpoint returning blank content on
every response (no tool calls), the adapter fails after exactly **2**
completion attempts with the *single*-empty-content `ValueError` ("LLM
返回空内容…"): the first retry re-issues the call with
`_retry_on_empty=False`, so the second blank response takes the
single-empty branch and the `max_empty_retries = 2` bound (and its distinct
"连续 3 次" repeated-empty error) is never reached. -/
theorem empty_content_two_attempts :
    llmCall (cfgR 3) (envConst (HttpOutcome.status 200 (okBody "") "OK")) none
      [userMsg] 10 true 0 0
      = (Except.error LlmError.emptySingle, 2) ∧
    errMessage LlmError.emptySingle ≠ errMessage LlmError.emptyRepeated := by
  constructor
  · have hstrip : pyStrip "" = "" := by decide
    simp [llmCall, attemptLoop, envConst, cfgR, okBody, validateMessages,
      validMessage, contentItemsOk, contentKeyPresent, userMsg, hstrip]
  · decide

/-- A tool message produced by one successful tool-call resolution passes
message validation (every success branch returns a `toolResultMsg`). -/
theorem processToolCall_valid (env : CallEnv) (fns : FnTable) (tc : ToolCall)
    (m : Message) (h : processToolCall env fns tc = Except.ok m) :
    validMessage m = true := by
  unfold processToolCall at h
  dsimp only at h
  repeat' split at h
  all_goals (cases h <;> rfl)

/-- The tool messages produced by a successful tool-call round all pass
message validation. -/
theorem processToolCalls_valid (env : CallEnv) (fns : FnTable)
    (tcs : List ToolCall) (ms : List Message)
    (h : processToolCalls env fns tcs = Except.ok ms) :
    ∀ m ∈ ms, validMessage m = true := by
  induction tcs generalizing ms with
  | nil =>
    simp only [processToolCalls] at h
    obtain rfl : ([] : List Message) = ms := Except.ok.inj h
    intro m hm
    simp at hm
  | cons tc rest ih =>
    simp only [processToolCalls] at h
    split at h
    · exact absurd h (by simp)
    · rename_i m0 hm0
      split at h
      · exact absurd h (by simp)
      · rename_i ms0 hms0
        obtain rfl : m0 :: ms0 = ms := Except.ok.inj h
        intro m hm
        rcases List.mem_cons.mp hm with rfl | hmem
        · exact processToolCall_valid env fns tc m hm0
        · exact ih ms0 hms0 m hmem

/-- Extending a valid exchange with the assistant tool-call message and a
round of valid tool messages keeps it valid. -/
theorem validateMessages_append (msgs ms : List Message) (tcs : List ToolCall)
    (h1 : validateMessages msgs = true) (h2 : ∀ m ∈ ms, validMessage m = true) :
    validateMessages (msgs ++ assistantToolMsg tcs :: ms) = true := by
  have ha : validMessage (assistantToolMsg tcs) = true := rfl
  have hb : ms.all validMessage = true := List.all_eq_true.mpr h2
  unfold validateMessages at h1 ⊢
  rw [List.all_append, List.all_cons, h1, ha, hb]
  rfl

/-- **C6** — Tool-loop bound: against an endpoint whose every response
requests further tool calls (each round resolving without error), the
tool-call resolution loop always terminates by raising the max-iterations
`RuntimeError` — for any fuel `n`, after exactly `(n + 1) / 2` completion
requests (5 for the default `max_iterations = 10`), never looping
indefinitely or truncating silently. -/
theorem tool_loop_bound (cfg : CallCfg) (env : CallEnv) (fns : FnTable)
    (bodyAt : Nat → ApiResult) (tcsAt : Nat → List ToolCall)
    (hhttp : ∀ i, env.http i = HttpOutcome.status 200 (bodyAt i) "OK")
    (hchoice : ∀ i, ∃ mc, (bodyAt i).choices.head? = some ⟨⟨mc, some (tcsAt i)⟩⟩)
    (hproc : ∀ i, ∃ ms, processToolCalls env fns (tcsAt i) = Except.ok ms)
    (n : Nat) :
    ∀ (msgs : List Message) (idx : Nat), validateMessages msgs = true →
      llmCall cfg env (some fns) msgs n true 0 idx
        = (Except.error LlmError.maxIterations, idx + (n + 1) / 2) := by
  induction n using Nat.strong_induction_on with
  | _ n ih =>
    intro msgs idx hv
    match n with
    | 0 =>
      rw [llmCall.eq_def]
      try norm_num
    | Nat.succ m =>
      obtain ⟨mc, hch⟩ := hchoice idx
      obtain ⟨ms, hpc⟩ := hproc idx
      have hstep : llmCall cfg env (some fns) msgs (Nat.succ m) true 0 idx
          = llmHandle cfg env fns (tcsAt idx) msgs m (idx + 1) := by
        rw [llmCall.eq_def]
        have hal : attemptLoop env.http idx (cfg.retry_count + 1) none
            = (Except.ok (bodyAt idx), idx + 1) := by
          rw [attemptLoop, hhttp idx]
          norm_num
        simp only [hv, Bool.not_true, Bool.false_eq_true, if_false, hal, hch]
      rw [hstep]
      match m with
      | 0 =>
        rw [llmHandle.eq_def]
        try norm_num
      | Nat.succ k =>
        rw [llmHandle.eq_def]
        simp only [hpc]
        have hv2 : validateMessages (msgs ++ assistantToolMsg (tcsAt idx) :: ms) = true :=
          validateMessages_append msgs ms (tcsAt idx) hv
            (processToolCalls_valid env fns (tcsAt idx) ms hpc)
        rw [ih k (by omega) (msgs ++ assistantToolMsg (tcsAt idx) :: ms) (idx + 1) hv2]
        congr 1
        omega

/-- **C6 witness** -/
theorem tool_loop_bound_witness :
    llmCall (cfgR 3) envToolLoop (some fnsEcho) [userMsg] 10 true 0 0
      = (Except.error LlmError.maxIterations, 5) := by
  have hp : processToolCalls envToolLoop fnsEcho [tc0]
      = Except.ok [toolResultMsg "call_1" "echoed"] := rfl
  have h := tool_loop_bound (cfgR 3) envToolLoop fnsEcho (fun _ => toolBody)
    (fun _ => [tc0]) (fun i => rfl)
    (fun i => ⟨some (ContentVal.strV ""), rfl⟩)
    (fun i => ⟨[toolResultMsg "call_1" "echoed"], hp⟩)
    10 [userMsg] 0 (by decide)
  exact h

/-- **C1 witness** -/
theorem join_by_key_witness :
    (∀ img ∈ reqTwo.images,
      dictLookup img.image_id (harvestById (fun v => v.image_id) voutsW) = none →
      ∀ pr ∈ editTaskArgs reqTwo (harvestById (fun v => v.image_id) voutsW),
        pr.1.image_id ≠ img.image_id) ∧
    ((aggregatePairs reqTwo (harvestById (fun v => v.image_id) voutsW)
        (harvestById (fun p => p.image_id) eoutsW)).map (fun pr => pr.2.image_id)
      = (reqTwo.images.filter (fun img =>
          (dictLookup img.image_id (harvestById (fun v => v.image_id) voutsW)).isSome &&
          (dictLookup img.image_id (harvestById (fun p => p.image_id) eoutsW)).isSome)).map
            (fun img => img.image_id)) ∧
    (∀ img ∈ reqTwo.images,
      (dictLookup img.image_id (harvestById (fun v => v.image_id) voutsW)).isSome →
      (dictLookup img.image_id (harvestById (fun p => p.image_id) eoutsW)).isSome →
      ((aggregatePairs reqTwo (harvestById (fun v => v.image_id) voutsW)
        (harvestById (fun p => p.image_id) eoutsW)).map
          (fun pr => pr.2.image_id)).count img.image_id = 1) ∧
    (∀ img ∈ reqTwo.images,
      (dictLookup img.image_id (harvestById (fun v => v.image_id) voutsW) = none ∨
       dictLookup img.image_id (harvestById (fun p => p.image_id) eoutsW) = none) →
      ((aggregatePairs reqTwo (harvestById (fun v => v.image_id) voutsW)
        (harvestById (fun p => p.image_id) eoutsW)).map
          (fun pr => pr.2.image_id)).count img.image_id = 0) :=
  join_by_key reqTwo voutsW eoutsW (by decide)

/-- **C9** — For every idea request with an empty image list,
`run_xhs_note_flow` returns `(null, 本次请求未上传任何图片)` immediately: no
phase executes, no executor is invoked and no duration metric is observed
(the emitted event list is empty), whatever the executor environment. -/
theorem empty_images_guard (env : FlowEnv) (idea_text : String) :
    run_xhs_note_flow env ⟨idea_text, []⟩ = ((none, noImagesMsg), []) := rfl

/-- **C8 counterexample** — The flow does not validate `idea_text`: with an
empty `idea_text` and one image, under an environment where every phase
succeeds, the flow returns a report and an empty error string instead of
rejecting the request as a validation error. -/
theorem empty_idea_text_not_rejected :
    (run_xhs_note_flow happyEnv ⟨"", [img0]⟩).1.1.isSome = true ∧
    (run_xhs_note_flow happyEnv ⟨"", [img0]⟩).1.2 = "" := by
  constructor <;> rfl

/-- The visual phase of a non-empty request invokes its executor exactly
once, whether it succeeds or raises. -/
theorem visual_phase_events (env : FlowEnv) (req : XhsNoteIdeaRequest)
    (h : req.images.isEmpty = false) :
    (run_visual_analysis_phase env req).2 = [FlowEvent.visualExec] := by
  unfold run_visual_analysis_phase
  rw [h]
  cases env.visualKick req <;> simp

/-- **C8 (amended)** — The entry contract of `run_xhs_note_flow` validates
only the image list: an empty image list is rejected with the fixed
no-images message and no executor invocation, while a request with non-empty
images — in particular one whose `idea_text` is empty — always proceeds into
the visual phase (its executor is invoked), for every environment.
(`XhsNoteIdeaRequest.idea_text` is a required but unconstrained string.) -/
theorem idea_text_not_validated (env : FlowEnv) (idea_text : String)
    (imgs : List XhsImageInput) :
    (imgs = [] → run_xhs_note_flow env ⟨idea_text, imgs⟩ = ((none, noImagesMsg), [])) ∧
    (imgs ≠ [] →
      FlowEvent.visualExec ∈ (run_xhs_note_flow env ⟨idea_text, imgs⟩).2) := by
  constructor
  · rintro rfl
    rfl
  · intro hne
    have hie : (⟨idea_text, imgs⟩ : XhsNoteIdeaRequest).images.isEmpty = false := by
      cases imgs with
      | nil => exact absurd rfl hne
      | cons a as => rfl
    unfold run_xhs_note_flow
    rw [hie]
    simp only [Bool.false_eq_true, if_false]
    split
    · rename_i e ev1 heq
      have h2 := visual_phase_events env ⟨idea_text, imgs⟩ hie
      rw [heq] at h2
      simp only at h2
      subst h2
      simp
    · rename_i vmap vsum ev1 heq
      have h2 := visual_phase_events env ⟨idea_text, imgs⟩ hie
      rw [heq] at h2
      simp only at h2
      subst h2
      split
      · simp
      · split <;> simp

/-- **C8 witness** -/
theorem idea_text_not_validated_witness :
    run_xhs_note_flow happyEnv ⟨"地中海饮食", []⟩ = ((none, noImagesMsg), []) ∧
    FlowEvent.visualExec ∈ (run_xhs_note_flow happyEnv ⟨"", [img0]⟩).2 :=
  ⟨(idea_text_not_validated happyEnv "地中海饮食" []).1 rfl,
   (idea_text_not_validated happyEnv "" [img0]).2 (by decide)⟩

/-- **C10 counterexample** — `AddImageToolLocal._run` strips the input
before the http(s) check, so an input that starts with `http://` but carries
trailing whitespace is not returned unchanged. -/
theorem http_url_not_returned_unchanged :
    ¬ (addImageToolLocalRun fsEmpty "http://a.com " = "http://a.com ") := by
  decide

/-- **C10 (amended)** — `AddImageToolLocal._run` always returns a string and
never raises: an input whose whitespace-stripped form starts with `http://`
or `https://` is returned stripped (hence unchanged exactly when it carries
no surrounding whitespace); a stripped path that does not name an existing
file yields the descriptive missing-file message; an existing file that
reads successfully yields a base64 data URL whose MIME type comes from the
lowercased file extension (jpeg by default; png/gif/webp/bmp recognized);
a read/processing failure yields the processing-error message string. -/
theorem add_image_tool_cases (fs : String → FileRead) (url : String) :
    ((pyStartsWith (pyStrip url) "http://" || pyStartsWith (pyStrip url) "https://") = true →
      addImageToolLocalRun fs url = pyStrip url) ∧
    ((pyStartsWith (pyStrip url) "http://" || pyStartsWith (pyStrip url) "https://") = false →
      (fs (pyStrip url) = FileRead.notFile →
        addImageToolLocalRun fs url = "图片文件不存在: " ++ pyStrip url) ∧
      (∀ msg, fs (pyStrip url) = FileRead.readError msg →
        addImageToolLocalRun fs url = "图片处理失败: " ++ msg) ∧
      (∀ bs, fs (pyStrip url) = FileRead.bytes bs →
        addImageToolLocalRun fs url =
          "data:" ++ mimeFromSuffix (pyToLower (pathSuffix (pyStrip url))) ++ ";base64," ++
            base64Encode bs)) := by
  constructor
  · intro h
    simp [addImageToolLocalRun, h]
  · intro h
    refine ⟨fun hnf => ?_, fun msg hre => ?_, fun bs hb => ?_⟩
    · simp [addImageToolLocalRun, local_path_to_base64_data_url, h, hnf]
    · simp [addImageToolLocalRun, local_path_to_base64_data_url, h, hre]
    · simp [addImageToolLocalRun, local_path_to_base64_data_url, h, hb]

/-- **C10 witness** -/
theorem add_image_tool_cases_witness :
    addImageToolLocalRun fsEmpty "  https://example.com/image.jpg  " =
      "https://example.com/image.jpg" ∧
    addImageToolLocalRun fsEmpty "/nonexistent/path/image.jpg" =
      "图片文件不存在: /nonexistent/path/image.jpg" ∧
    addImageToolLocalRun fsOnePng "/tmp/xhs/b.PNG" =
      "data:image/png;base64,TWFu" :=
  ⟨(add_image_tool_cases fsEmpty "  https://example.com/image.jpg  ").1 (by decide),
   ((add_image_tool_cases fsEmpty "/nonexistent/path/image.jpg").2 (by decide)).1 (by decide),
   by
    have h := (((add_image_tool_cases fsOnePng "/tmp/xhs/b.PNG").2 (by decide)).2.2
      [77, 97, 110] (by decide))
    exact h.trans (by decide)⟩

/-- **C7 counterexample** — With the `task_visual_analysis` template id
missing from the loaded configuration, `build_visual_analysis_task` raises
(`AttributeError`: `.format` on the `None` returned by
`cfg.get("description")`) instead of returning an empty task
specification. -/
theorem missing_template_raises :
    build_visual_analysis_task [] img0 "地中海饮食"
      = Except.error BuildError.attrNoneFormat := rfl

/-- **C7 (amended)** — On a missing template id the two summary-task
builders return an empty task specification (empty description and expected
output) without raising, but the two per-image builders
(`build_visual_analysis_task`, `build_image_edit_task`) raise an
`AttributeError` by calling `.format` on the `None` that
`cfg.get("description")` returns. -/
theorem missing_template_behavior (cfg : TasksConfig) (img : XhsImageInput)
    (v : XhsImageVisualAnalysis) (idea_text : String) :
    (dictLookup "task_visual_analysis" cfg = none →
      build_visual_analysis_task cfg img idea_text
        = Except.error BuildError.attrNoneFormat) ∧
    (dictLookup "task_image_edit_plan" cfg = none →
      build_image_edit_task cfg idea_text img v
        = Except.error BuildError.attrNoneFormat) ∧
    (dictLookup "task_visual_analysis_summary" cfg = none →
      build_visual_analysis_summary_task cfg = ⟨"", ""⟩) ∧
    (dictLookup "task_image_edit_plan_summary" cfg = none →
      build_image_edit_plan_summary_task cfg = ⟨"", ""⟩) := by
  refine ⟨fun h1 => ?_, fun h2 => ?_, fun h3 => ?_, fun h4 => ?_⟩
  · simp [build_visual_analysis_task, get_task_config, h1]
  · simp [build_image_edit_task, get_task_config, h2]
  · simp [build_visual_analysis_summary_task, get_task_config, h3]
  · simp [build_image_edit_plan_summary_task, get_task_config, h4]

/-- **C7 witness** -/
theorem missing_template_behavior_witness :
    build_visual_analysis_task [] img0 "t" = Except.error BuildError.attrNoneFormat ∧
    build_image_edit_task [] "t" img0 va0 = Except.error BuildError.attrNoneFormat ∧
    build_visual_analysis_summary_task [] = ⟨"", ""⟩ ∧
    build_image_edit_plan_summary_task [] = ⟨"", ""⟩ :=
  ⟨(missing_template_behavior [] img0 va0 "t").1 rfl,
   (missing_template_behavior [] img0 va0 "t").2.1 rfl,
   (missing_template_behavior [] img0 va0 "t").2.2.1 rfl,
   (missing_template_behavior [] img0 va0 "t").2.2.2 rfl⟩

end XhsNote
